import Mathlib

/-!
Shallow embedding of the scraping orchestration core of `scraper.py`
(class `PlaywrightScraper`): the element extraction routine
`extract_element_data`, the per-URL visit `scrape_page`, the run
orchestrator `scrape`, and the session teardown `close`.

Modelling conventions:
* Effectful browser operations (navigation, selector wait, network-idle
  wait, page open/close, session open/close) are represented by explicit
  success/failure flags in an environment record; the control flow of the
  Python methods (try/except/finally placement, re-raise, caught-and-
  continue) is reproduced verbatim over those flags.
* Python string truthiness (`if text_content:` etc.) is the test against
  the empty string: an absent attribute and an empty attribute both read
  as `""`, exactly as both are falsy in the source.
* A Python dict result is a structure whose optional fields are `Option`;
  `extract_element_data`'s catch-all that returns `{}` is `none`, and the
  caller's `if data_item:` filter keeps exactly the `some` values (the
  structural fields are always inserted first, so every non-exceptional
  dict is non-empty, hence truthy).
* `urllib.parse.urljoin` is external library code, passed in as an
  explicit function parameter `joinUrl`; no claim depends on its
  resolution semantics, only on whether the link fields are populated.
* Clock reads (`asyncio.get_event_loop().time()`) are an environment
  value `time`; sleeps are counted, not timed.
-/

/-- One matched DOM element as seen by `extract_element_data`: the values
the awaited Playwright calls would return, plus a flag for the case in
which one of those calls raises (the method's catch-all). An absent
`href`/`src` attribute and empty text/markup are `""`, matching Python
falsiness. -/
structure Element where
  text_content : String
  inner_html : String
  attributes : List (String × String)
  href : String
  src : String
  extractFails : Bool
deriving DecidableEq, Repr

/-- The record dict built by `extract_element_data` (lines 232-288):
four structural fields inserted unconditionally, then six conditionally
inserted content fields. -/
structure DataItem where
  url : String
  selector : String
  index : Nat
  timestamp : Nat
  text : Option String
  html : Option String
  attributes : Option (List (String × String))
  link : Option String
  image_src : Option String
  data_attributes : Option (List (String × String))
deriving DecidableEq, Repr

/-- Errors that can propagate out of the modelled methods. -/
inductive ScrapeError where
  | initError
  | newPageError (url : String)
  | navError (url : String)
  | selectorTimeout (url : String)
  | loadError (url : String)
  | pageCloseError (url : String)
deriving DecidableEq, Repr

/-- The `url` field of `ScrapingConfig` is `Union[str, List[str]]`. -/
inductive UrlField where
  | single (u : String)
  | multi (us : List String)
deriving DecidableEq, Repr

/-- Line 103: `urls = [self.config.url] if isinstance(self.config.url, str)
else self.config.url`. -/
def urlList : UrlField → List String
  | .single u => [u]
  | .multi us => us

/-- The fields of `config.ScrapingConfig` that the scraping core reads.
Presentation-only fields (viewport, headless, user-agent rotation pools)
feed the browser launch, which the model treats as an atomic may-fail
step. -/
structure ScrapingConfig where
  url : UrlField
  selectors : List String
  delay : Nat
  timeout : Nat
  max_pages : Nat
  wait_for_selector : Option String

/-- Environment of one URL visit: which awaited browser operations fail.
`elements` is `page.query_selector_all`: `none` means the call raised
(caught per selector, line 167-169), `some es` its matches in document
order. `time` is the event-loop clock read used for timestamps. -/
structure PageEnv where
  newPageFails : Bool
  gotoFails : Bool
  waitSelectorFails : Bool
  networkIdleFails : Bool
  pageCloseFails : Bool
  time : Nat
  elements : String → Option (List Element)

/-- Environment of one run: whether the lazy `initialize_browser` call
raises, and the page environment each URL will see. -/
structure RunEnv where
  initFails : Bool
  pages : String → PageEnv

/-- Lines 218-294, `extract_element_data`: on any exception the method
logs and returns the empty dict (`none` here); otherwise it returns the
four structural fields plus each content field gated by Python
truthiness of the raw (untrimmed) value. -/
def extract_element_data (joinUrl : String → String → String)
    (url selector : String) (index ts : Nat) (e : Element) : Option DataItem :=
  if e.extractFails then
    none
  else
    some {
      url := url
      selector := selector
      index := index
      timestamp := ts
      text := if e.text_content = "" then none else some e.text_content.trim
      html := if e.inner_html = "" then none else some e.inner_html.trim
      attributes := if e.attributes = [] then none else some e.attributes
      link := if e.href = "" then none else some (joinUrl url e.href)
      image_src := if e.src = "" then none else some (joinUrl url e.src)
      data_attributes :=
        if e.attributes.filter (fun a => a.fst.startsWith "data-") = [] then none
        else some (e.attributes.filter (fun a => a.fst.startsWith "data-")) }

/-- Lines 162-165: `for i, element in enumerate(elements): data_item =
await self.extract_element_data(...); if data_item:
scraped_data.append(data_item)`. The accumulator index starts at 0. -/
def extractLoop (joinUrl : String → String → String) (url selector : String)
    (ts : Nat) : Nat → List Element → List DataItem
  | _, [] => []
  | i, e :: es =>
    match extract_element_data joinUrl url selector i ts e with
    | some d => d :: extractLoop joinUrl url selector ts (i + 1) es
    | none => extractLoop joinUrl url selector ts (i + 1) es

/-- Records emitted for one selector's match set (enumeration from 0). -/
def selectorRecords (joinUrl : String → String → String) (url selector : String)
    (ts : Nat) (es : List Element) : List DataItem :=
  extractLoop joinUrl url selector ts 0 es

/-- Lines 158-169: iterate the configured selectors in order; a
`query_selector_all` failure is caught, logged and skipped (`continue`),
so it contributes no records and later selectors still run. -/
def selectorLoop (joinUrl : String → String → String) (p : PageEnv)
    (url : String) : List String → List DataItem
  | [] => []
  | s :: rest =>
    (match p.elements s with
     | none => []
     | some es => selectorRecords joinUrl url s p.time es) ++
    selectorLoop joinUrl p url rest

/-- All records extracted on a successfully loaded page. -/
def pageRecords (joinUrl : String → String → String) (p : PageEnv)
    (cfg : ScrapingConfig) (url : String) : List DataItem :=
  selectorLoop joinUrl p url cfg.selectors

/-- Outcome of one `scrape_page` call: its return-or-raise, and how many
times `page.close()` was invoked on the page handle. -/
structure PageVisit where
  result : Except ScrapeError (List DataItem)
  pageCloseCalls : Nat

/-- Lines 126-180, `scrape_page`: acquire a fresh page (outside the
try, so a `new_page` failure closes nothing); then navigate, optionally
wait for the configured selector, wait for network idle — each failure
re-raised by the `except` after the `finally` has closed the page.
`handle_page_interactions` (line 155) catches all of its own errors and
the pacing sleep (line 172) cannot fail, so neither alters control flow.
The `finally: await page.close()` is NOT wrapped in its own handler: a
close-time error propagates from the method, replacing whatever the body
produced (Python finally semantics). -/
def scrape_page (joinUrl : String → String → String) (p : PageEnv)
    (cfg : ScrapingConfig) (url : String) : PageVisit :=
  if p.newPageFails then
    { result := .error (.newPageError url), pageCloseCalls := 0 }
  else
    let body : Except ScrapeError (List DataItem) :=
      if p.gotoFails then .error (.navError url)
      else if cfg.wait_for_selector.isSome && p.waitSelectorFails then
        .error (.selectorTimeout url)
      else if p.networkIdleFails then .error (.loadError url)
      else .ok (pageRecords joinUrl p cfg url)
    { result := if p.pageCloseFails then .error (.pageCloseError url) else body
      pageCloseCalls := 1 }

/-- Accumulated outcome of the orchestration loop of `scrape`. -/
structure LoopOut where
  result : Except ScrapeError (List DataItem)
  sleeps : Nat
  visited : List String
  pageCloses : Nat
deriving Repr

/-- Lines 106-118, the `for url in urls[:self.config.max_pages]` loop:
visit the page (a raised error propagates immediately, ending the loop
with the accumulated records discarded); on success extend the
accumulator when the page produced records, then sleep the configured
inter-page delay whenever the full normalized URL list has more than one
entry. `totalUrls` is `len(urls)` of that full list. -/
def scrapeLoop (joinUrl : String → String → String) (env : RunEnv)
    (cfg : ScrapingConfig) (totalUrls : Nat) :
    List String → List DataItem → LoopOut
  | [], acc => { result := .ok acc, sleeps := 0, visited := [], pageCloses := 0 }
  | url :: rest, acc =>
    let v := scrape_page joinUrl (env.pages url) cfg url
    match v.result with
    | .error e =>
      { result := .error e, sleeps := 0, visited := [url]
        pageCloses := v.pageCloseCalls }
    | .ok pageData =>
      let acc2 := if pageData ≠ [] then acc ++ pageData else acc
      let r := scrapeLoop joinUrl env cfg totalUrls rest acc2
      { result := r.result
        sleeps := (if 1 < totalUrls then 1 else 0) + r.sleeps
        visited := url :: r.visited
        pageCloses := v.pageCloseCalls + r.pageCloses }

/-- Outcome of one `scrape` call, with resource accounting: how many
times `self.close()` ran, how many inter-page delay sleeps happened,
which URLs had `scrape_page` invoked, and total page-close calls. -/
structure RunOutcome where
  result : Except ScrapeError (List DataItem)
  closeCalls : Nat
  interPageSleeps : Nat
  visited : List String
  pageCloseCalls : Nat
deriving Repr

/-- Lines 91-124, `scrape` on a fresh scraper (`self.browser is None`):
the lazy `await self.initialize_browser()` on line 99 sits BEFORE the
`try`, so when it raises, the error propagates without `self.close()`
ever running. Once inside the `try`, the `finally: await self.close()`
runs exactly once on every path (return, per-page failure, unexpected
error), and `close` never raises (see `close` below), so it does not
disturb the result. -/
def scrape (joinUrl : String → String → String) (env : RunEnv)
    (cfg : ScrapingConfig) : RunOutcome :=
  if env.initFails then
    { result := .error .initError, closeCalls := 0, interPageSleeps := 0
      visited := [], pageCloseCalls := 0 }
  else
    let urls := urlList cfg.url
    let l := scrapeLoop joinUrl env cfg urls.length (urls.take cfg.max_pages) []
    { result := l.result, closeCalls := 1, interPageSleeps := l.sleeps
      visited := l.visited, pageCloseCalls := l.pageCloses }

/-- State of the session handles when `close` (lines 78-89) is entered,
and which of the three teardown calls would raise. `has*` false models a
partially initialized or already-torn-down session (the attributes are
`None`, or `playwright` never assigned). -/
structure CloseEnv where
  hasContext : Bool
  hasBrowser : Bool
  hasPlaywright : Bool
  contextCloseFails : Bool
  browserCloseFails : Bool
  playwrightStopFails : Bool
deriving DecidableEq, Repr

/-- What `close` did: whether it raised to its caller (never — the whole
body is wrapped in `try/except` that only logs), and which handles were
actually torn down before the first failure, if any. -/
structure CloseResult where
  raised : Bool
  contextClosed : Bool
  browserClosed : Bool
  playwrightStopped : Bool
deriving DecidableEq, Repr

/-- Lines 78-89, `close`: sequentially close context, browser, stop the
driver, each guarded by a presence test; the first raising call jumps to
the `except`, which logs and swallows, so the method never raises. -/
def close (env : CloseEnv) : CloseResult :=
  if env.hasContext && env.contextCloseFails then
    { raised := false, contextClosed := false, browserClosed := false
      playwrightStopped := false }
  else if env.hasBrowser && env.browserCloseFails then
    { raised := false, contextClosed := env.hasContext, browserClosed := false
      playwrightStopped := false }
  else if env.hasPlaywright && env.playwrightStopFails then
    { raised := false, contextClosed := env.hasContext
      browserClosed := env.hasBrowser, playwrightStopped := false }
  else
    { raised := false, contextClosed := env.hasContext
      browserClosed := env.hasBrowser, playwrightStopped := env.hasPlaywright }

/-- A page visit in which every browser operation succeeds. -/
def visitOk (p : PageEnv) (cfg : ScrapingConfig) : Bool :=
  !p.newPageFails && !p.gotoFails &&
  !(cfg.wait_for_selector.isSome && p.waitSelectorFails) &&
  !p.networkIdleFails && !p.pageCloseFails

/-- Concatenation of the per-URL record lists in visitation order. -/
def runRecords (joinUrl : String → String → String) (env : RunEnv)
    (cfg : ScrapingConfig) : List String → List DataItem
  | [] => []
  | u :: rest => pageRecords joinUrl (env.pages u) cfg u ++ runRecords joinUrl env cfg rest

/-- A concrete URL resolver standing in for `urllib.parse.urljoin` in
closed instances; all theorems hold for every resolver. -/
def urljoin0 : String → String → String := fun _ rel => rel

/-! Concrete instances used in closed counterexamples and witnesses. -/

/-- A visit environment in which every operation succeeds and every
selector matches zero elements. -/
def pageAllOk0 : PageEnv :=
  ⟨false, false, false, false, false, 0, fun _ => some []⟩

/-- A visit environment whose navigation (`page.goto`) raises. -/
def pageNavFail : PageEnv :=
  ⟨false, true, false, false, false, 0, fun _ => some []⟩

/-- A visit environment in which everything succeeds except the final
`page.close()` in the `finally` block. -/
def pageCloseFail : PageEnv :=
  ⟨false, false, false, false, true, 0, fun _ => some []⟩

/-- A single-URL, single-selector configuration. -/
def cfg1 : ScrapingConfig := ⟨.single "ua", ["h1"], 1, 30000, 1, none⟩

/-- An element with text content and nothing else of note. -/
def elemHello : Element := ⟨"Hello", "", [], "", "", false⟩

/-- A second such element, for the other page. -/
def elemWorld : Element := ⟨"World", "", [], "", "", false⟩

/-- A run over "ua" (one h1 match) then "ub" (navigation fails). -/
def envW3 : RunEnv :=
  ⟨false, fun u =>
    if u = "ub" then pageNavFail
    else ⟨false, false, false, false, false, 7,
      fun s => if s = "h1" then some [elemHello] else some []⟩⟩

/-- Two configured URLs, generous page limit. -/
def cfgW3 : ScrapingConfig := ⟨.multi ["ua", "ub"], ["h1"], 0, 30000, 5, none⟩

/-- A run in which every visit succeeds with zero matches. -/
def envW4 : RunEnv := ⟨false, fun _ => pageAllOk0⟩

/-- Two configured URLs, page limit 2. -/
def cfgW4 : ScrapingConfig := ⟨.multi ["ua", "ub"], ["h1"], 1, 30000, 2, none⟩

/-- A run where "ua" matches Hello and every other URL matches World. -/
def envW7 : RunEnv :=
  ⟨false, fun u =>
    ⟨false, false, false, false, false, 7,
      fun s => if s = "h1" then some [if u = "ua" then elemHello else elemWorld]
               else some []⟩⟩

/-- Two configured URLs, page limit 10. -/
def cfgW7 : ScrapingConfig := ⟨.multi ["ua", "ub"], ["h1"], 0, 30000, 10, none⟩

/-- One URL, one selector that will match zero elements. -/
def cfgW9 : ScrapingConfig := ⟨.single "ua", [".missing"], 1, 30000, 1, none⟩

/-- An element whose text and markup are whitespace-only. -/
def elemW8 : Element := ⟨" a ", " ", [], "", "", false⟩

/-- The record `extract_element_data` builds for `elemW8`. -/
def recW8 : DataItem :=
  ⟨"u", "s", 0, 0, some " a ".trim, some " ".trim, none, none, none, none⟩

/-- An element carrying only a relative href value. -/
def elemW10 : Element := ⟨"", "", [], "/p/1", "", false⟩

/-- The record `extract_element_data` builds for `elemW10` at index 0. -/
def recW10 : DataItem :=
  ⟨"u", "s", 0, 5, none, none, none, some (urljoin0 "u" "/p/1"), none, none⟩

/-! Helper lemmas shared by the claim theorems. -/

/-- Extraction returns a record exactly when no awaited call raised. -/
theorem extract_isSome (joinUrl : String → String → String) (url s : String)
    (i ts : Nat) (e : Element) :
    (extract_element_data joinUrl url s i ts e).isSome = !e.extractFails := by
  by_cases h : e.extractFails <;> simp [extract_element_data, h]

/-- On a successful extraction, the record's structural fields are the
arguments the loop supplied. -/
theorem extract_structural (joinUrl : String → String → String) (url s : String)
    (i ts : Nat) (e : Element) (d : DataItem) (hf : e.extractFails = false)
    (h : extract_element_data joinUrl url s i ts e = some d) :
    d.url = url ∧ d.selector = s ∧ d.index = i ∧ d.timestamp = ts := by
  simp [extract_element_data, hf] at h
  subst h
  exact ⟨rfl, rfl, rfl, rfl⟩

/-- Length of the per-selector emission counts exactly the elements whose
extraction succeeded; emptiness of content never removes a record. -/
theorem extractLoop_length (joinUrl : String → String → String) (url s : String)
    (ts : Nat) :
    ∀ (es : List Element) (i : Nat),
      (extractLoop joinUrl url s ts i es).length =
        es.countP (fun e => !e.extractFails) := by
  intro es
  induction es with
  | nil => intro i; simp [extractLoop]
  | cons e rest ih =>
    intro i
    by_cases h : e.extractFails <;>
      simp [extractLoop, extract_element_data, h, List.countP_cons, ih]

/-- Every record the per-selector loop emits arises from a successfully
extracted element at offset `k` from the running index. -/
theorem extractLoop_mem (joinUrl : String → String → String) (url s : String)
    (ts : Nat) :
    ∀ (es : List Element) (i : Nat) (d : DataItem),
      d ∈ extractLoop joinUrl url s ts i es →
      ∃ k, ∃ h : k < es.length, d.index = i + k ∧
        (es.get ⟨k, h⟩).extractFails = false ∧
        extract_element_data joinUrl url s (i + k) ts (es.get ⟨k, h⟩) = some d := by
  intro es
  induction es with
  | nil => intro i d hd; simp [extractLoop] at hd
  | cons e rest ih =>
    intro i d hd
    simp only [extractLoop] at hd
    cases hext : extract_element_data joinUrl url s i ts e with
    | none =>
      rw [hext] at hd
      obtain ⟨k, hk, hik, hfk, hexk⟩ := ih (i + 1) d hd
      refine ⟨k + 1, Nat.succ_lt_succ hk, by omega, ?_, ?_⟩
      · simpa using hfk
      · have : i + 1 + k = i + (k + 1) := by omega
        rw [this] at hexk
        simpa using hexk
    | some d0 =>
      have hf : e.extractFails = false := by
        cases hfb : e.extractFails with
        | true => rw [extract_element_data, if_pos (by simp [hfb])] at hext; cases hext
        | false => rfl
      rw [hext] at hd
      rcases List.mem_cons.mp hd with rfl | hd'
      · obtain ⟨-, -, hidx, -⟩ :=
          extract_structural joinUrl url s i ts e d hf hext
        exact ⟨0, by simp, by simpa using hidx, by simpa using hf, by simpa using hext⟩
      · obtain ⟨k, hk, hik, hfk, hexk⟩ := ih (i + 1) d hd'
        refine ⟨k + 1, Nat.succ_lt_succ hk, by omega, by simpa using hfk, ?_⟩
        have : i + 1 + k = i + (k + 1) := by omega
        rw [this] at hexk
        simpa using hexk

/-- A fully successful visit returns the page's extracted records and
closes the page once. -/
theorem visitOk_scrape_page (joinUrl : String → String → String) (p : PageEnv)
    (cfg : ScrapingConfig) (url : String) (h : visitOk p cfg = true) :
    scrape_page joinUrl p cfg url =
      { result := .ok (pageRecords joinUrl p cfg url), pageCloseCalls := 1 } := by
  simp only [visitOk, Bool.and_eq_true, Bool.not_eq_true'] at h
  obtain ⟨⟨⟨⟨h1, h2⟩, h3⟩, h4⟩, h5⟩ := h
  simp [scrape_page, h1, h2, h3, h4, h5]

/-- Appending-guarded-by-nonemptiness is plain appending. -/
theorem append_if_ne_nil (acc l : List DataItem) :
    (if l ≠ [] then acc ++ l else acc) = acc ++ l := by
  by_cases h : l = [] <;> simp [h]

/-- When every visit in the worklist succeeds, the loop returns the
accumulated records followed by the per-URL records in order, sleeps once
per visited URL when the configured list has more than one entry, visits
the whole worklist, and closes one page per visit. -/
theorem scrapeLoop_ok (joinUrl : String → String → String) (env : RunEnv)
    (cfg : ScrapingConfig) (n : Nat) :
    ∀ (us : List String) (acc : List DataItem),
      (∀ u ∈ us, visitOk (env.pages u) cfg = true) →
      scrapeLoop joinUrl env cfg n us acc =
        { result := .ok (acc ++ runRecords joinUrl env cfg us)
          sleeps := if 1 < n then us.length else 0
          visited := us
          pageCloses := us.length } := by
  intro us
  induction us with
  | nil => intro acc _; simp [scrapeLoop, runRecords]
  | cons u rest ih =>
    intro acc h
    have hu := h u (by simp)
    have hrest : ∀ v ∈ rest, visitOk (env.pages v) cfg = true :=
      fun v hv => h v (by simp [hv])
    rw [scrapeLoop, visitOk_scrape_page joinUrl (env.pages u) cfg u hu]
    simp only [append_if_ne_nil, ih _ hrest, runRecords]
    simp only [LoopOut.mk.injEq]
    refine ⟨?_, ?_, trivial, ?_⟩
    · rw [List.append_assoc]
    · by_cases hn : 1 < n <;> simp [hn, List.length_cons, Nat.add_comm]
    · simp [List.length_cons, Nat.add_comm]

/-- A page failure at the head of the worklist ends the loop at once with
that error; the accumulator is dropped. -/
theorem scrapeLoop_cons_error (joinUrl : String → String → String) (env : RunEnv)
    (cfg : ScrapingConfig) (n : Nat) (url : String) (rest : List String)
    (acc : List DataItem) (e : ScrapeError)
    (h : (scrape_page joinUrl (env.pages url) cfg url).result = .error e) :
    scrapeLoop joinUrl env cfg n (url :: rest) acc =
      { result := .error e, sleeps := 0, visited := [url]
        pageCloses := (scrape_page joinUrl (env.pages url) cfg url).pageCloseCalls } := by
  rw [scrapeLoop]
  simp only [h]

/-- Visits before a failing URL do not rescue the run: the loop's result
is the failing visit's error. -/
theorem scrapeLoop_error (joinUrl : String → String → String) (env : RunEnv)
    (cfg : ScrapingConfig) (n : Nat) (u : String) (post : List String)
    (e : ScrapeError)
    (hfail : (scrape_page joinUrl (env.pages u) cfg u).result = .error e) :
    ∀ (pre : List String) (acc : List DataItem),
      (∀ v ∈ pre, visitOk (env.pages v) cfg = true) →
      (scrapeLoop joinUrl env cfg n (pre ++ u :: post) acc).result = .error e := by
  intro pre
  induction pre with
  | nil =>
    intro acc _
    rw [List.nil_append, scrapeLoop_cons_error joinUrl env cfg n u post acc e hfail]
  | cons v rest ih =>
    intro acc h
    have hv := h v (by simp)
    have hrest : ∀ w ∈ rest, visitOk (env.pages w) cfg = true :=
      fun w hw => h w (by simp [hw])
    rw [List.cons_append, scrapeLoop,
      visitOk_scrape_page joinUrl (env.pages v) cfg v hv]
    simp only [append_if_ne_nil]
    exact ih _ hrest

/-- The page handle is closed once on every exit path of a visit whose
page acquisition succeeded. -/
theorem scrape_page_closes (joinUrl : String → String → String) (p : PageEnv)
    (cfg : ScrapingConfig) (url : String) (h : p.newPageFails = false) :
    (scrape_page joinUrl p cfg url).pageCloseCalls = 1 := by
  simp [scrape_page, h]

/-- Across the loop, pages are closed exactly once per visit whenever
page acquisition never fails — also on the failing visit that ends the
loop. -/
theorem scrapeLoop_closes (joinUrl : String → String → String) (env : RunEnv)
    (cfg : ScrapingConfig) (n : Nat) :
    ∀ (us : List String) (acc : List DataItem),
      (∀ u ∈ us, (env.pages u).newPageFails = false) →
      (scrapeLoop joinUrl env cfg n us acc).pageCloses =
        (scrapeLoop joinUrl env cfg n us acc).visited.length := by
  intro us
  induction us with
  | nil => intro acc _; simp [scrapeLoop]
  | cons u rest ih =>
    intro acc h
    have hu : (env.pages u).newPageFails = false := h u (by simp)
    have hrest : ∀ v ∈ rest, (env.pages v).newPageFails = false :=
      fun v hv => h v (by simp [hv])
    rw [scrapeLoop]
    cases hres : (scrape_page joinUrl (env.pages u) cfg u).result with
    | error e =>
      simp only []
      simp [scrape_page_closes joinUrl (env.pages u) cfg u hu]
    | ok l =>
      simp only []
      simp [scrape_page_closes joinUrl (env.pages u) cfg u hu, ih _ hrest,
        Nat.add_comm]

/-- A page on which every configured selector matches zero elements
yields no records. -/
theorem pageRecords_nil (joinUrl : String → String → String) (p : PageEnv)
    (cfg : ScrapingConfig) (url : String)
    (h : ∀ s ∈ cfg.selectors, p.elements s = some []) :
    pageRecords joinUrl p cfg url = [] := by
  unfold pageRecords
  suffices hs : ∀ ss : List String, (∀ s ∈ ss, p.elements s = some []) →
      selectorLoop joinUrl p url ss = [] from hs _ h
  intro ss
  induction ss with
  | nil => intro _; simp [selectorLoop]
  | cons s rest ih =>
    intro h
    rw [selectorLoop, h s (by simp), ih (fun v hv => h v (by simp [hv]))]
    simp [selectorRecords, extractLoop]

/-! Claim theorems. -/

/-- C1, counterexample: an element with no text, no markup, no
attributes, no href and no src — yet whose extraction raises nothing —
still yields a record on the page: the four structural fields are always
inserted, so the dict is truthy and `if data_item:` keeps it. The claim's
empty-element-drop invariant fails on this input. -/
theorem contentless_element_still_emits_record :
    (scrape_page urljoin0
        ⟨false, false, false, false, false, 0,
          fun _ => some [⟨"", "", [], "", "", false⟩]⟩
        cfg1 "ua").result =
      .ok [⟨"ua", "h1", 0, 0, none, none, none, none, none, none⟩] := rfl

/-- C1 (amended): a record is dropped only when the element's extraction
raises (the empty-dict path); extraction success always emits exactly one
record, regardless of how many content fields beyond
url/selector/index/timestamp are populated — the per-selector emission
count equals the number of elements whose extraction succeeded. -/
theorem record_dropped_only_on_extraction_failure
    (joinUrl : String → String → String) (url s : String) (ts : Nat)
    (es : List Element) :
    (selectorRecords joinUrl url s ts es).length =
      es.countP (fun e => !e.extractFails) :=
  extractLoop_length joinUrl url s ts es 0

/-- C2, counterexample: when the lazy `initialize_browser()` on line 99
raises, the error propagates from `scrape` without `self.close()` ever
being invoked — the call sits before the `try/finally` — refuting
"teardown is invoked exactly once on every exit path, including a failure
of the lazy session open itself". -/
theorem init_failure_skips_close :
    (scrape urljoin0 ⟨true, fun _ => pageAllOk0⟩ cfg1).closeCalls = 0 ∧
    (scrape urljoin0 ⟨true, fun _ => pageAllOk0⟩ cfg1).result =
      .error .initError :=
  ⟨rfl, rfl⟩

/-- C2 (amended): `self.close()` is invoked exactly once on every exit
path out of `scrape` on which the lazy session open succeeded — success,
per-page failure, or unexpected error — but zero times when the lazy
open itself fails, since that call precedes the `try/finally`. -/
theorem close_called_once_iff_init_succeeds
    (joinUrl : String → String → String) (env : RunEnv)
    (cfg : ScrapingConfig) :
    (scrape joinUrl env cfg).closeCalls = if env.initFails then 0 else 1 := by
  cases h : env.initFails <;> simp [scrape, h]

/-- C3: when any single visited URL fails fatally, the run re-raises that
error and returns no records — records collected from the earlier,
successfully visited prefix are discarded, never returned as a partial
result. -/
theorem run_aborts_and_discards_on_page_failure
    (joinUrl : String → String → String) (env : RunEnv)
    (cfg : ScrapingConfig) (e : ScrapeError) (pre post : List String)
    (u : String)
    (hinit : env.initFails = false)
    (hsplit : (urlList cfg.url).take cfg.max_pages = pre ++ u :: post)
    (hpre : ∀ v ∈ pre, visitOk (env.pages v) cfg = true)
    (hfail : (scrape_page joinUrl (env.pages u) cfg u).result = .error e) :
    (scrape joinUrl env cfg).result = .error e := by
  simp only [scrape, hinit, Bool.false_eq_true, if_false]
  rw [hsplit]
  exact scrapeLoop_error joinUrl env cfg _ u post e hfail pre [] hpre

/-- C3, witness: a run over "ua" (which succeeds and extracts a record)
and then "ub" (whose navigation fails) ends in the navigation error, with
the record from "ua" discarded. -/
theorem run_aborts_and_discards_witness :
    (scrape urljoin0 envW3 cfgW3).result = .error (.navError "ub") :=
  run_aborts_and_discards_on_page_failure urljoin0 envW3 cfgW3
    (.navError "ub") ["ua"] [] "ub" rfl rfl (by decide) rfl

/-- C4, counterexample: with the two configured URLs of `cfgW4` and both
visits succeeding, the inter-page delay is slept twice — once after each
visited URL, including after the last — whereas the claim ("between
consecutive navigations only, none after the last") requires exactly
one sleep for two visits. Line 115's `if len(urls) > 1` guard sits inside
the loop body after every visit, not between visits. -/
theorem delay_applied_after_last_url :
    (scrape urljoin0 envW4 cfgW4).visited = ["ua", "ub"] ∧
    (scrape urljoin0 envW4 cfgW4).interPageSleeps = 2 :=
  ⟨rfl, rfl⟩

/-- C4 (amended): whenever the normalized configured URL list has more
than one entry, the orchestrator sleeps the configured inter-page delay
once after every successfully visited URL — including the last one; when
exactly one URL is configured, no inter-page delay is ever applied. -/
theorem inter_page_delay_per_visit
    (joinUrl : String → String → String) (env : RunEnv)
    (cfg : ScrapingConfig)
    (hinit : env.initFails = false)
    (hok : ∀ u ∈ (urlList cfg.url).take cfg.max_pages,
      visitOk (env.pages u) cfg = true) :
    (scrape joinUrl env cfg).interPageSleeps =
      if 1 < (urlList cfg.url).length
      then ((urlList cfg.url).take cfg.max_pages).length else 0 := by
  simp only [scrape, hinit, Bool.false_eq_true, if_false]
  rw [scrapeLoop_ok joinUrl env cfg _ _ [] hok]

/-- C4, witness: the amended statement evaluated on the two-URL run. -/
theorem inter_page_delay_per_visit_witness :
    (scrape urljoin0 envW4 cfgW4).interPageSleeps =
      if 1 < (urlList cfgW4.url).length
      then ((urlList cfgW4.url).take cfgW4.max_pages).length else 0 :=
  inter_page_delay_per_visit urljoin0 envW4 cfgW4 rfl (by decide)

/-- C5: once the page handle for a URL is acquired (`new_page`
succeeded), `page.close()` runs exactly once on every exit path of the
visit — navigation failure, selector-wait failure, network-idle failure,
close failure, or success — and across a whole run the loop closes one
page per visited URL, the visit completing (close included) before the
next URL is processed. -/
theorem page_closed_on_every_exit_path
    (joinUrl : String → String → String) (p : PageEnv)
    (cfg : ScrapingConfig) (url : String) (env : RunEnv)
    (hp : p.newPageFails = false)
    (hinit : env.initFails = false)
    (henv : ∀ u ∈ (urlList cfg.url).take cfg.max_pages,
      (env.pages u).newPageFails = false) :
    (scrape_page joinUrl p cfg url).pageCloseCalls = 1 ∧
    (scrape joinUrl env cfg).pageCloseCalls =
      (scrape joinUrl env cfg).visited.length := by
  refine ⟨scrape_page_closes joinUrl p cfg url hp, ?_⟩
  simp only [scrape, hinit, Bool.false_eq_true, if_false]
  exact scrapeLoop_closes joinUrl env cfg _ _ [] henv

/-- C5, witness: the page of a failing navigation is still closed once,
and the aborting two-URL run closes as many pages as it visited. -/
theorem page_closed_on_every_exit_path_witness :
    (scrape_page urljoin0 pageNavFail cfgW3 "ub").pageCloseCalls = 1 ∧
    (scrape urljoin0 envW3 cfgW3).pageCloseCalls =
      (scrape urljoin0 envW3 cfgW3).visited.length :=
  page_closed_on_every_exit_path urljoin0 pageNavFail cfgW3 "ub" envW3
    rfl rfl (by decide)

/-- C6, counterexample: an error raised by `page.close()` in
`scrape_page`'s bare `finally` (line 178) is NOT caught: the visit whose
body succeeded (second conjunct shows the identical environment with a
healthy close returns ok) instead raises the close-time error — a
teardown error that propagates and replaces a successful result,
refuting "teardown errors are always caught and logged, never
propagated". -/
theorem page_close_error_propagates :
    (scrape_page urljoin0 pageCloseFail cfg1 "ua").result =
      .error (.pageCloseError "ua") ∧
    (scrape_page urljoin0 pageAllOk0 cfg1 "ua").result = .ok [] :=
  ⟨rfl, rfl⟩

/-- C6 (amended): errors while closing the session (`self.close`, lines
78-89) are always caught and logged, never propagated — `close` never
raises, for every handle state including double-close and partial
initialization, so it cannot mask the run's outcome; but an error from
the per-URL `page.close()` in `scrape_page`'s `finally` is not caught
and propagates out of the visit, replacing the visit's outcome. -/
theorem session_close_never_raises_page_close_propagates
    (cenv : CloseEnv) (joinUrl : String → String → String) (p : PageEnv)
    (cfg : ScrapingConfig) (url : String)
    (hnp : p.newPageFails = false) (hpc : p.pageCloseFails = true) :
    (close cenv).raised = false ∧
    (scrape_page joinUrl p cfg url).result = .error (.pageCloseError url) := by
  constructor
  · unfold close
    split
    · rfl
    · split
      · rfl
      · split
        · rfl
        · rfl
  · simp [scrape_page, hnp, hpc]

/-- C6, witness: a close in which every teardown step would raise still
returns without raising, and a close-failing visit raises the page-close
error. -/
theorem session_close_never_raises_witness :
    (close ⟨true, true, true, true, false, false⟩).raised = false ∧
    (scrape_page urljoin0 pageCloseFail cfg1 "ua").result =
      .error (.pageCloseError "ua") :=
  session_close_never_raises_page_close_propagates
    ⟨true, true, true, true, false, false⟩ urljoin0 pageCloseFail cfg1 "ua"
    rfl rfl

/-- C7: a run whose visits all succeed visits exactly the first
min(N, max_pages) configured URLs in input order, and returns the
concatenation of the per-URL record lists in visitation order (selector
match order inside each URL is preserved by construction of
`pageRecords`). -/
theorem successful_run_visits_min_and_concatenates
    (joinUrl : String → String → String) (env : RunEnv)
    (cfg : ScrapingConfig)
    (hinit : env.initFails = false)
    (hok : ∀ u ∈ (urlList cfg.url).take cfg.max_pages,
      visitOk (env.pages u) cfg = true) :
    (scrape joinUrl env cfg).visited = (urlList cfg.url).take cfg.max_pages ∧
    (scrape joinUrl env cfg).visited.length =
      min (urlList cfg.url).length cfg.max_pages ∧
    (scrape joinUrl env cfg).result =
      .ok (runRecords joinUrl env cfg ((urlList cfg.url).take cfg.max_pages)) := by
  simp only [scrape, hinit, Bool.false_eq_true, if_false]
  rw [scrapeLoop_ok joinUrl env cfg _ _ [] hok]
  refine ⟨rfl, ?_, by simp⟩
  simp [List.length_take, Nat.min_comm]

/-- C7, witness: the spec's two-URL Hello/World scenario, page limit 10:
both URLs are visited in order and the result is Hello's record followed
by World's. -/
theorem successful_run_visits_min_witness :
    (scrape urljoin0 envW7 cfgW7).visited =
      (urlList cfgW7.url).take cfgW7.max_pages ∧
    (scrape urljoin0 envW7 cfgW7).visited.length =
      min (urlList cfgW7.url).length cfgW7.max_pages ∧
    (scrape urljoin0 envW7 cfgW7).result =
      .ok (runRecords urljoin0 envW7 cfgW7
        ((urlList cfgW7.url).take cfgW7.max_pages)) :=
  successful_run_visits_min_and_concatenates urljoin0 envW7 cfgW7 rfl
    (by decide)

/-- Guarded-field helper: the field is absent exactly when the guard
(raw-value emptiness) holds. -/
theorem option_ite_eq_none {α : Type} {c : Prop} [Decidable c] {x : α} :
    (if c then (none : Option α) else some x) = none ↔ c := by
  by_cases hc : c <;> simp [hc]

/-- Guarded-field helper: a present field carries the guarded value. -/
theorem option_ite_eq_some {α : Type} {c : Prop} [Decidable c] {x y : α}
    (h : (if c then (none : Option α) else some x) = some y) : y = x := by
  by_cases hc : c <;> simp [hc] at h
  exact h.symm

/-- C8, counterexample: an element whose text content is the single
space " " gets a text field — present, with value the empty string —
because line 241 tests the raw text for truthiness before stripping;
the claim requires the field to be omitted whenever the text is empty
after trimming. -/
theorem whitespace_text_yields_present_field :
    extract_element_data urljoin0 "u" "s" 0 0 ⟨" ", "", [], "", "", false⟩ =
      some ⟨"u", "s", 0, 0, some " ".trim, none, none, none, none, none⟩ := rfl

/-- C8 (amended): for a successfully extracted element, the text field
is present iff the raw text content is non-empty — so whitespace-only
text yields a present field whose value is empty after the strip — and
when present it equals the trimmed text; the markup field behaves the
same way on the raw inner markup; the attribute map is omitted iff the
element has no attributes. -/
theorem field_presence_follows_raw_nonemptiness
    (joinUrl : String → String → String) (url s : String) (i ts : Nat)
    (e : Element) (d : DataItem)
    (hf : e.extractFails = false)
    (hd : extract_element_data joinUrl url s i ts e = some d) :
    (d.text = none ↔ e.text_content = "") ∧
    (∀ t, d.text = some t → t = e.text_content.trim) ∧
    (d.html = none ↔ e.inner_html = "") ∧
    (∀ m, d.html = some m → m = e.inner_html.trim) ∧
    (d.attributes = none ↔ e.attributes = []) ∧
    (∀ al, d.attributes = some al → al = e.attributes) := by
  simp only [extract_element_data, hf, Bool.false_eq_true, if_false,
    Option.some.injEq] at hd
  subst hd
  exact ⟨option_ite_eq_none, fun t ht => option_ite_eq_some ht,
    option_ite_eq_none, fun m hm => option_ite_eq_some hm,
    option_ite_eq_none, fun al hal => option_ite_eq_some hal⟩

/-- C8, witness: the amended field policy evaluated on a concrete
element with padded text, whitespace markup and no attributes. -/
theorem field_presence_witness :
    (recW8.text = none ↔ elemW8.text_content = "") ∧
    (∀ t, recW8.text = some t → t = elemW8.text_content.trim) ∧
    (recW8.html = none ↔ elemW8.inner_html = "") ∧
    (∀ m, recW8.html = some m → m = elemW8.inner_html.trim) ∧
    (recW8.attributes = none ↔ elemW8.attributes = []) ∧
    (∀ al, recW8.attributes = some al → al = elemW8.attributes) :=
  field_presence_follows_raw_nonemptiness urljoin0 "u" "s" 0 0 elemW8 recW8
    rfl rfl

/-- C9, counterexample: a run over one healthy page whose only selector
matches zero elements returns success with the empty record sequence —
a return shape the claim rules out ("no successful return of an empty
record sequence"). -/
theorem zero_match_run_succeeds_empty :
    (scrape urljoin0 envW4 cfgW9).result = .ok ([] : List DataItem) := rfl

/-- C9 (amended): every run either returns an ordered record sequence —
possibly empty — or fails with the first fatal error; in particular, a
selector matching zero elements on otherwise-successful pages yields a
successful run with zero records, not an error. -/
theorem run_succeeds_with_zero_records_on_no_matches
    (joinUrl : String → String → String) (env : RunEnv)
    (cfg : ScrapingConfig)
    (hinit : env.initFails = false)
    (hok : ∀ u ∈ (urlList cfg.url).take cfg.max_pages,
      visitOk (env.pages u) cfg = true)
    (hempty : ∀ u ∈ (urlList cfg.url).take cfg.max_pages,
      ∀ s ∈ cfg.selectors, (env.pages u).elements s = some []) :
    (scrape joinUrl env cfg).result = .ok [] := by
  simp only [scrape, hinit, Bool.false_eq_true, if_false]
  rw [scrapeLoop_ok joinUrl env cfg _ _ [] hok]
  simp only [List.nil_append]
  have hrun : ∀ us : List String,
      (∀ u ∈ us, ∀ s ∈ cfg.selectors, (env.pages u).elements s = some []) →
      runRecords joinUrl env cfg us = [] := by
    intro us
    induction us with
    | nil => intro _; rfl
    | cons u rest ih =>
      intro h
      rw [runRecords, pageRecords_nil joinUrl (env.pages u) cfg u
        (h u (by simp)), ih (fun v hv => h v (by simp [hv]))]
      rfl
  rw [hrun _ hempty]

/-- C9, witness: the single-URL ".missing" run succeeds with zero
records. -/
theorem run_succeeds_with_zero_records_witness :
    (scrape urljoin0 envW4 cfgW9).result = .ok [] :=
  run_succeeds_with_zero_records_on_no_matches urljoin0 envW4 cfgW9 rfl
    (by decide) (by decide)

/-- C10: every record the per-selector extraction emits carries the four
structural fields — the page URL, the matching selector, the 0-based
ordinal index of its element within the selector's match set (in
document order), and the capture timestamp — and arises from an element
whose extraction succeeded, so a failing element (empty mapping,
filtered by `if data_item:`) contributes no record, partial or
otherwise. -/
theorem emitted_records_have_structural_fields
    (joinUrl : String → String → String) (url s : String) (ts : Nat)
    (es : List Element) (d : DataItem)
    (hd : d ∈ selectorRecords joinUrl url s ts es) :
    d.url = url ∧ d.selector = s ∧ d.timestamp = ts ∧
    ∃ h : d.index < es.length, (es.get ⟨d.index, h⟩).extractFails = false ∧
      extract_element_data joinUrl url s d.index ts
        (es.get ⟨d.index, h⟩) = some d := by
  obtain ⟨k, hk, hik, hfk, hexk⟩ := extractLoop_mem joinUrl url s ts es 0 d hd
  rw [Nat.zero_add] at hik hexk
  obtain ⟨hu, hsl, hi, ht⟩ :=
    extract_structural joinUrl url s k ts (es.get ⟨k, hk⟩) d hfk hexk
  refine ⟨hu, hsl, ht, ?_⟩
  rw [hi]
  exact ⟨hk, hfk, hexk⟩

/-- C10, witness: the one record of a one-element match set carries the
structural fields and points back at its element. -/
theorem emitted_records_structural_witness :
    recW10.url = "u" ∧ recW10.selector = "s" ∧ recW10.timestamp = 5 ∧
    ∃ h : recW10.index < [elemW10].length,
      ([elemW10].get ⟨recW10.index, h⟩).extractFails = false ∧
      extract_element_data urljoin0 "u" "s" recW10.index 5
        ([elemW10].get ⟨recW10.index, h⟩) = some recW10 :=
  emitted_records_have_structural_fields urljoin0 "u" "s" 5 [elemW10] recW10
    (by decide)
